import Mathlib

/-!
# Verification of the ClamAV API SDK client library (Go)

A shallow embedding of the hand-written core of the `clamav-api-sdk-go`
client library: the error taxonomy (`errors.go`), the REST transport's
construction / error-response mapping / health check / scan entry points
(`client.go`, package `clamav`), and the gRPC transport's chunking
orchestrator, error mapping and scan entry points (`client.go`, package
`grpc`).

Byte slices are modelled as `List Nat`, Go strings as `String`, Go `error`
values as the inductive `GoErr` (an SDK `*Error` or an error foreign to the
SDK, each with an optional wrapped cause).  Fallible functions return
`Except GoErr _`.  Functions are modelled up to the point a network request
is issued: the request that would be sent is the return value, so
"fails before any network call" is visible as returning `.error` instead
of a request description.
-/

namespace ClamavSdk

/-! ## Result model -/

/-- Scan verdict (`ScanResult`).  The `scan_time` field (a float64 no claim
depends on) is omitted. -/
structure ScanResult where
  Status : String
  Message : String
  Filename : String
deriving DecidableEq

/-- Health check outcome (`HealthCheckResult`). -/
structure HealthCheckResult where
  Healthy : Bool
  Message : String
deriving DecidableEq

/-- A named byte payload (`FileInput`), the unit of work for multi-file
streaming. -/
structure FileInput where
  Data : List Nat
  Filename : String
deriving DecidableEq

/-! ## Error taxonomy (`errors.go`) -/

/-- `CodeConnection`: machine-readable code of connection errors. -/
def CodeConnection : String := "connection_error"

/-- `CodeTimeout`: machine-readable code of timeout errors. -/
def CodeTimeout : String := "timeout"

/-- `CodeValidation`: machine-readable code of validation errors. -/
def CodeValidation : String := "validation_error"

/-- `CodeService`: machine-readable code of service errors. -/
def CodeService : String := "service_error"

/-- A Go `error` value as the SDK sees it: either the SDK's own `*Error`
(fields `Code`, `Message`, `StatusCode`, `Cause`) or an error foreign to
the SDK (e.g. a wrapper produced by `fmt.Errorf` with `%w`, a transport
error, a JSON decode error).  `Cause = none` models a nil cause. -/
inductive GoErr where
  | sdk (Code Message : String) (StatusCode : Int) (Cause : Option GoErr)
  | ext (Message : String) (Cause : Option GoErr)

/-- `(*Error).Unwrap` / the unwrap step of a foreign wrapper: the wrapped
cause, if any. -/
def GoErr.unwrap : GoErr → Option GoErr
  | .sdk _ _ _ c => c
  | .ext _ c => c

/-- The `Code` field when the value is an SDK `*Error` (empty for foreign
errors). -/
def GoErr.code : GoErr → String
  | .sdk c _ _ _ => c
  | .ext _ _ => ""

/-- The `StatusCode` field when the value is an SDK `*Error` (0, the Go
zero value, otherwise). -/
def GoErr.statusCode : GoErr → Int
  | .sdk _ _ s _ => s
  | .ext _ _ => 0

/-- Whether the value is the SDK's `*Error` type. -/
def GoErr.isSdk : GoErr → Bool
  | .sdk _ _ _ _ => true
  | .ext _ _ => false

/-- `NewConnectionError`. -/
def NewConnectionError (msg : String) (cause : Option GoErr) : GoErr :=
  .sdk CodeConnection msg 0 cause

/-- `NewTimeoutError`. -/
def NewTimeoutError (msg : String) (cause : Option GoErr) : GoErr :=
  .sdk CodeTimeout msg 0 cause

/-- `NewValidationError`. -/
def NewValidationError (msg : String) (cause : Option GoErr) : GoErr :=
  .sdk CodeValidation msg 0 cause

/-- `NewServiceError`. -/
def NewServiceError (msg : String) (statusCode : Int) (cause : Option GoErr) : GoErr :=
  .sdk CodeService msg statusCode cause

/-- `errors.As(err, &e)` with `e` of type `*clamav.Error`: walk the unwrap
chain and return the `Code`/`StatusCode` of the first SDK `*Error`
encountered, or `none` when the chain holds no SDK error. -/
def errorsAsSdkError : GoErr → Option (String × Int)
  | .sdk c _ s _ => some (c, s)
  | .ext _ none => none
  | .ext _ (some e) => errorsAsSdkError e

/-- `IsConnectionError`. -/
def IsConnectionError (err : GoErr) : Bool :=
  match errorsAsSdkError err with
  | some (c, _) => c == CodeConnection
  | none => false

/-- `IsTimeoutError`. -/
def IsTimeoutError (err : GoErr) : Bool :=
  match errorsAsSdkError err with
  | some (c, _) => c == CodeTimeout
  | none => false

/-- `IsValidationError`. -/
def IsValidationError (err : GoErr) : Bool :=
  match errorsAsSdkError err with
  | some (c, _) => c == CodeValidation
  | none => false

/-- `IsServiceError`. -/
def IsServiceError (err : GoErr) : Bool :=
  match errorsAsSdkError err with
  | some (c, _) => c == CodeService
  | none => false

/-- Wrap an error in a stack of foreign decorators (e.g. repeated
`fmt.Errorf("context: %w", err)`), innermost last. -/
def wrapExt : List String → GoErr → GoErr
  | [], e => e
  | m :: ms, e => .ext m (some (wrapExt ms e))

/-! ## REST transport (`client.go`, package `clamav`) -/

namespace Rest

/-- Fixed endpoint path of the scan upload. -/
def pathScan : String := "/api/scan"

/-- Fixed endpoint path of the stream scan. -/
def pathStreamScan : String := "/api/stream-scan"

/-- `handleErrorResponse`: maps a non-success HTTP response to an SDK
error.  `statusCode` is `resp.StatusCode`; `body` is the result of JSON
decoding the response body into `{status, message}` (`.error` carries the
decode error). -/
def handleErrorResponse (statusCode : Int) (body : Except GoErr (String × String)) : GoErr :=
  match body with
  | .error err =>
    NewServiceError
      (s!"unexpected status {statusCode} and failed to decode error response")
      statusCode (some err)
  | .ok (st, message) =>
    let msg := if message = "" then st else message
    if statusCode = 400 then NewValidationError msg none
    else if statusCode = 413 then NewValidationError msg none
    else if statusCode = 499 then NewTimeoutError msg none
    else if statusCode = 502 then NewServiceError msg statusCode none
    else if statusCode = 504 then NewTimeoutError msg none
    else NewServiceError (s!"unexpected status {statusCode}: {msg}") statusCode none

/-- The `HealthCheckResult` the REST `HealthCheck` builds from a decoded
response: healthy iff HTTP 200 and the message field is literally "ok". -/
def healthCheckResult (statusCode : Int) (message : String) : HealthCheckResult :=
  { Healthy := statusCode == 200 && message == "ok", Message := message }

/-- The multipart POST that `ScanReader` builds: one form file part named
"file" with the given filename and bytes, POSTed to the scan path. -/
structure MultipartScanRequest where
  path : String
  fieldName : String
  filename : String
  fileBytes : List Nat
deriving DecidableEq

/-- REST `ScanReader` (with the reader's contents as `data`) up to the
point the HTTP request is issued: an empty filename defaults to "file";
the multipart body is built (for an in-memory byte source the multipart
writer steps cannot fail) and the upload request is returned — there is no
emptiness check on the payload. -/
def ScanReader (data : List Nat) (filename : String) :
    Except GoErr MultipartScanRequest :=
  let fn := if filename = "" then "file" else filename
  .ok { path := pathScan, fieldName := "file", filename := fn, fileBytes := data }

/-- REST `ScanFile`: delegates to `ScanReader` over `bytes.NewReader(data)`. -/
def ScanFile (data : List Nat) (filename : String) :
    Except GoErr MultipartScanRequest :=
  ScanReader data filename

/-- The raw-stream POST that `StreamScan` builds: octet-stream content
type and the declared content length. -/
structure StreamScanRequest where
  path : String
  contentType : String
  contentLength : Int
deriving DecidableEq

/-- REST `StreamScan` up to the point the HTTP request is issued: a
non-positive declared size is rejected as a Validation error before the
request exists. -/
def StreamScan (size : Int) : Except GoErr StreamScanRequest :=
  if size ≤ 0 then .error (NewValidationError "size must be greater than 0" none)
  else .ok { path := pathStreamScan
             contentType := "application/octet-stream"
             contentLength := size }

/-- `strings.TrimRight(s, "/")`: remove all trailing slash characters. -/
def trimRightSlashes (s : String) : String :=
  ((s.toList.reverse.dropWhile (fun c => c == '/')).reverse).asString

/-- The two URL fields `NewClient` reads. -/
structure URL where
  scheme : String
  host : String
deriving DecidableEq

/-- Outcome of `net/url`'s `getscheme`: the raw URL has no scheme prefix,
has a colon before any scheme character (a parse error), or splits as
`scheme ":" rest`. -/
inductive SchemeSplit where
  | noScheme
  | schemeErr
  | found (scheme rest : List Char)

/-- `net/url`'s `getscheme` scan: a scheme is `ALPHA (ALPHA / DIGIT / "+"
/ "-" / ".")*` terminated by a colon; a digit/`+`/`-`/`.` in first
position, a non-scheme character, or the end of the string before a colon
means there is no scheme; a colon in first position is an error.  `acc`
accumulates the scheme characters scanned so far. -/
def getscheme (acc : List Char) : List Char → SchemeSplit
  | [] => .noScheme
  | c :: rest =>
    if c.isAlpha then getscheme (acc ++ [c]) rest
    else if c.isDigit || c == '+' || c == '-' || c == '.' then
      if acc.isEmpty then .noScheme else getscheme (acc ++ [c]) rest
    else if c == ':' then
      if acc.isEmpty then .schemeErr else .found acc rest
    else .noScheme

/-- Models `net/url.Parse` restricted to the fields `NewClient` reads
(scheme and host): strip the fragment at the first `#`; split off the
scheme with `getscheme` (lowercasing it, as Go does); strip the query at
the first `?`; when the remainder starts with `//`, the host is the
authority — up to the next `/`, after the last `@` — otherwise the host
is empty (opaque or path-only URL).  A leading colon, or a scheme-less
URL whose first path segment contains a colon, is a parse error.  Go's
additional host-character and port validation is not modelled (no claim
depends on it). -/
def urlParse (s : String) : Except String URL :=
  let beforeFrag := s.toList.takeWhile (fun c => c ≠ '#')
  match getscheme [] beforeFrag with
  | .schemeErr => .error "missing protocol scheme"
  | sp =>
    let (scheme, rest) :=
      match sp with
      | .found sch r => (sch.map Char.toLower, r)
      | _ => ([], beforeFrag)
    let rest := rest.takeWhile (fun c => c ≠ '?')
    if rest.take 2 = ['/', '/'] then
      let authority := (rest.drop 2).takeWhile (fun c => c ≠ '/')
      let host := (authority.reverse.takeWhile (fun c => c ≠ '@')).reverse
      .ok { scheme := scheme.asString, host := host.asString }
    else if scheme.isEmpty ∧ (rest.takeWhile (fun c => c ≠ '/')).contains ':' then
      .error "first path segment in URL cannot contain a colon"
    else
      .ok { scheme := scheme.asString, host := "" }

/-- `NewClient` for the REST transport: trailing slashes are trimmed from
the base URL before anything else; the trimmed URL must parse and must
have both a scheme and a host, otherwise construction fails with a
Validation error; on success the trimmed URL is the stored `baseURL`. -/
def NewClient (baseURL : String) : Except GoErr String :=
  let b := trimRightSlashes baseURL
  match urlParse b with
  | .error e =>
    .error (NewValidationError ("invalid base URL: " ++ b) (some (.ext e none)))
  | .ok u =>
    if u.scheme = "" ∨ u.host = "" then
      .error (NewValidationError ("base URL must include scheme and host: " ++ b) none)
    else .ok b

end Rest

/-! ## gRPC transport (`client.go`, package `grpc`) -/

namespace Grpc

/-- A gRPC status extracted from an error by `status.FromError` in the
`ok = true` case: numeric code (`codes.Code`, a uint32) and message. -/
structure GrpcStatus where
  code : Nat
  message : String

/-- `grpcCodeToHTTP`: fixed translation of gRPC status codes to
HTTP-equivalent status codes; codes outside the standard vocabulary
translate to 500. -/
def grpcCodeToHTTP (c : Nat) : Int :=
  match c with
  | 0 => 200   -- codes.OK
  | 3 => 400   -- codes.InvalidArgument
  | 16 => 401  -- codes.Unauthenticated
  | 7 => 403   -- codes.PermissionDenied
  | 5 => 404   -- codes.NotFound
  | 6 => 409   -- codes.AlreadyExists
  | 8 => 429   -- codes.ResourceExhausted
  | 1 => 499   -- codes.Canceled
  | 13 => 500  -- codes.Internal
  | 15 => 500  -- codes.DataLoss
  | 2 => 500   -- codes.Unknown
  | 12 => 501  -- codes.Unimplemented
  | 14 => 503  -- codes.Unavailable
  | 4 => 504   -- codes.DeadlineExceeded
  | _ => 500

/-- `mapGRPCError`: converts a gRPC error to an SDK error.  `st` is the
outcome of `status.FromError(err)` (`none` models `ok = false`); `err` is
the original error, kept as the cause. -/
def mapGRPCError (st : Option GrpcStatus) (err : GoErr) : GoErr :=
  match st with
  | none => NewConnectionError "gRPC error" (some err)
  | some s =>
    match s.code with
    | 3 => NewValidationError s.message (some err)   -- codes.InvalidArgument
    | 13 => NewServiceError s.message 500 (some err) -- codes.Internal
    | 4 => NewTimeoutError s.message (some err)      -- codes.DeadlineExceeded
    | 1 => NewTimeoutError s.message (some err)      -- codes.Canceled
    | 14 => NewConnectionError s.message (some err)  -- codes.Unavailable
    | c => NewServiceError s.message (grpcCodeToHTTP c) (some err)

/-- The `HealthCheckResult` the gRPC `HealthCheck` builds from a response:
healthy iff the status field is literally "healthy". -/
def healthCheckResult (status message : String) : HealthCheckResult :=
  { Healthy := status == "healthy", Message := message }

/-- One message of the client-streaming scan (`pb.ScanStreamRequest`):
chunk bytes, optional filename (proto zero value "" when absent) and the
end-of-stream flag. -/
structure ScanStreamRequest where
  Chunk : List Nat
  Filename : String
  IsLast : Bool
deriving DecidableEq

/-- The loop of `sendChunks` (`for i := 0; i < len(data); i += c.chunkSize`),
written recursively on the not-yet-sent suffix of the payload: each
iteration sends `data[i:min(i+chunkSize, len(data))]`, tags the first
iteration with the filename, and flags the chunk reaching `len(data)` as
last.  `fuel` bounds the iteration count; `data.length` iterations always
suffice when `1 ≤ chunkSize` (the client enforces a positive chunk size:
the default is 64 KiB and `WithChunkSize` ignores non-positive values). -/
def sendChunksGo (chunkSize : Nat) (filename : String) :
    Nat → Bool → List Nat → List ScanStreamRequest
  | _, _, [] => []
  | 0, _, _ :: _ => []
  | fuel + 1, first, b :: rest =>
    { Chunk := (b :: rest).take chunkSize
      Filename := if first then filename else ""
      IsLast := ((b :: rest).drop chunkSize).isEmpty }
      :: sendChunksGo chunkSize filename fuel false ((b :: rest).drop chunkSize)

/-- `sendChunks`: the messages emitted for one payload.  A zero-length
payload emits a single message carrying the filename and the last flag;
otherwise the loop above runs from index 0 with the filename on the first
chunk. -/
def sendChunks (chunkSize : Nat) (data : List Nat) (filename : String) :
    List ScanStreamRequest :=
  if data.isEmpty then [{ Chunk := [], Filename := filename, IsLast := true }]
  else sendChunksGo chunkSize filename data.length true data

/-- gRPC `ScanFile` up to the unary RPC: an empty payload is rejected as a
Validation error (via `mapGRPCError` on an InvalidArgument status error)
before the call; otherwise the `{data, filename}` request that would be
sent. -/
def ScanFile (data : List Nat) (filename : String) :
    Except GoErr (List Nat × String) :=
  if data.length = 0 then
    .error (mapGRPCError (some ⟨3, "file data is required"⟩)
      (.ext "rpc error: code = InvalidArgument desc = file data is required" none))
  else .ok (data, filename)

/-! ### `ScanMultiple`

The send goroutine walks the input files in order; a file whose
`sendChunks` call fails contributes a synthesized ERROR result (and the
loop continues with the next file); a file whose chunks are all sent
contributes its chunk messages to the stream; the deferred `CloseSend`
runs once after the loop.  The receive goroutine forwards each verdict the
server streams back until end-of-stream, then closes the result channel.
A file's batch outcome is modelled as `FileInput × Option String`: `none`
means its `sendChunks` call succeeded, `some m` that it failed with error
message `m`.  The result channel's content is some interleaving of the
sender's synthesized ERROR results with the receiver's forwarded
verdicts. -/

/-- An event of the send goroutine: a chunk message on the stream, an
ERROR result posted to the result channel, or the `CloseSend` call. -/
inductive SendEvent where
  | chunkMsg (r : ScanStreamRequest)
  | errResult (r : ScanResult)
  | closeSend
deriving DecidableEq

/-- The ordered event trace of the send goroutine (no cancellation): per
file either its synthesized ERROR result or its chunk messages, then the
single deferred `CloseSend`. -/
def senderTrace (chunkSize : Nat) (files : List (FileInput × Option String)) :
    List SendEvent :=
  (files.map fun fo =>
    match fo.2 with
    | some m =>
      [SendEvent.errResult { Status := "ERROR", Message := m, Filename := fo.1.Filename }]
    | none => (sendChunks chunkSize fo.1.Data fo.1.Filename).map SendEvent.chunkMsg).flatten
  ++ [SendEvent.closeSend]

/-- The ERROR results the send goroutine posts to the result channel: one
per file whose `sendChunks` call failed, in file order. -/
def senderResults (files : List (FileInput × Option String)) : List ScanResult :=
  files.filterMap fun fo =>
    match fo.2 with
    | some m => some { Status := "ERROR", Message := m, Filename := fo.1.Filename }
    | none => none

/-- Number of files whose chunks were all sent on the stream. -/
def sentCount (files : List (FileInput × Option String)) : Nat :=
  (files.filter fun fo => fo.2.isNone).length

end Grpc

/-- `Merge xs ys zs`: `zs` is an order-preserving interleaving of `xs` and
`ys` — the order nondeterminism of two goroutines posting to one
channel. -/
inductive Merge : List ScanResult → List ScanResult → List ScanResult → Prop where
  | nil : Merge [] [] []
  | left {x : ScanResult} {xs ys zs : List ScanResult} :
      Merge xs ys zs → Merge (x :: xs) ys (x :: zs)
  | right {y : ScanResult} {xs ys zs : List ScanResult} :
      Merge xs ys zs → Merge xs (y :: ys) (y :: zs)

/-! ## Theorems -/

namespace Grpc

/-- Concatenating the chunks emitted by the `sendChunks` loop reproduces
the not-yet-sent suffix it started from. -/
theorem sendChunksGo_flatten (cs : Nat) (fn : String) (hcs : 1 ≤ cs) :
    ∀ (fuel : Nat) (data : List Nat) (first : Bool), data.length ≤ fuel →
      ((sendChunksGo cs fn fuel first data).map ScanStreamRequest.Chunk).flatten = data := by
  intro fuel
  induction fuel with
  | zero =>
    intro data first h
    cases data with
    | nil => simp [sendChunksGo]
    | cons b rest => simp at h
  | succ fuel ih =>
    intro data first h
    cases data with
    | nil => simp [sendChunksGo]
    | cons b rest =>
      simp only [sendChunksGo, List.map_cons, List.flatten_cons]
      rw [ih ((b :: rest).drop cs) false (by simp [List.length_drop] at h ⊢; omega)]
      exact List.take_append_drop cs (b :: rest)

/-- Every chunk the `sendChunks` loop emits holds at most `chunkSize`
bytes. -/
theorem sendChunksGo_chunk_le (cs : Nat) (fn : String) :
    ∀ (fuel : Nat) (first : Bool) (data : List Nat) (r : ScanStreamRequest),
      r ∈ sendChunksGo cs fn fuel first data → r.Chunk.length ≤ cs := by
  intro fuel
  induction fuel with
  | zero =>
    intro first data r hr
    cases data with
    | nil => simp [sendChunksGo] at hr
    | cons b rest => simp [sendChunksGo] at hr
  | succ fuel ih =>
    intro first data r hr
    cases data with
    | nil => simp [sendChunksGo] at hr
    | cons b rest =>
      simp only [sendChunksGo, List.mem_cons] at hr
      rcases hr with h | h
      · subst h
        simp only [List.length_take]
        exact Nat.min_le_left _ _
      · exact ih false _ r h

/-- On a nonempty payload suffix, the `sendChunks` loop flags exactly the
last emitted chunk as final. -/
theorem sendChunksGo_isLast (cs : Nat) (fn : String) (hcs : 1 ≤ cs) :
    ∀ (fuel : Nat) (data : List Nat) (first : Bool), data ≠ [] → data.length ≤ fuel →
      (sendChunksGo cs fn fuel first data).map ScanStreamRequest.IsLast
        = List.replicate ((sendChunksGo cs fn fuel first data).length - 1) false
          ++ [true] := by
  intro fuel
  induction fuel with
  | zero =>
    intro data first hne h
    cases data with
    | nil => exact absurd rfl hne
    | cons b rest => simp at h
  | succ fuel ih =>
    intro data first hne h
    cases data with
    | nil => exact absurd rfl hne
    | cons b rest =>
      by_cases hd : ((b :: rest).drop cs).isEmpty
      · have hnil : (b :: rest).drop cs = [] := by simpa [List.isEmpty_iff] using hd
        simp [sendChunksGo, hnil]
      · have hnil : (b :: rest).drop cs ≠ [] := by simpa [List.isEmpty_iff] using hd
        have hlen : ((b :: rest).drop cs).length ≤ fuel := by
          simp [List.length_drop] at h ⊢; omega
        have hrec := ih ((b :: rest).drop cs) false hnil hlen
        have hpos : 1 ≤ (sendChunksGo cs fn fuel false ((b :: rest).drop cs)).length := by
          have hlens := congrArg List.length hrec
          simp at hlens
          omega
        simp only [sendChunksGo, List.map_cons, List.length_cons, hd, Nat.add_sub_cancel]
        rw [hrec]
        rw [show (sendChunksGo cs fn fuel false ((b :: rest).drop cs)).length
              = ((sendChunksGo cs fn fuel false ((b :: rest).drop cs)).length - 1) + 1 by
            omega]
        simp [List.replicate_succ]

/-- On a nonempty payload suffix, the `sendChunks` loop puts the filename
exactly on the first emitted chunk. -/
theorem sendChunksGo_filename (cs : Nat) (fn : String) (hcs : 1 ≤ cs) :
    ∀ (fuel : Nat) (data : List Nat) (first : Bool), data ≠ [] → data.length ≤ fuel →
      (sendChunksGo cs fn fuel first data).map ScanStreamRequest.Filename
        = (if first then fn else "")
          :: List.replicate ((sendChunksGo cs fn fuel first data).length - 1) "" := by
  intro fuel
  induction fuel with
  | zero =>
    intro data first hne h
    cases data with
    | nil => exact absurd rfl hne
    | cons b rest => simp at h
  | succ fuel ih =>
    intro data first hne h
    cases data with
    | nil => exact absurd rfl hne
    | cons b rest =>
      by_cases hd : ((b :: rest).drop cs).isEmpty
      · have hnil : (b :: rest).drop cs = [] := by simpa [List.isEmpty_iff] using hd
        simp [sendChunksGo, hnil]
      · have hnil : (b :: rest).drop cs ≠ [] := by simpa [List.isEmpty_iff] using hd
        have hlen : ((b :: rest).drop cs).length ≤ fuel := by
          simp [List.length_drop] at h ⊢; omega
        have hrec := ih ((b :: rest).drop cs) false hnil hlen
        have hpos : 1 ≤ (sendChunksGo cs fn fuel false ((b :: rest).drop cs)).length := by
          have hlens := congrArg List.length hrec
          simp at hlens
          omega
        simp only [sendChunksGo, List.map_cons, List.length_cons, Nat.add_sub_cancel]
        rw [hrec]
        rw [show (sendChunksGo cs fn fuel false ((b :: rest).drop cs)).length
              = ((sendChunksGo cs fn fuel false ((b :: rest).drop cs)).length - 1) + 1 by
            omega]
        simp [List.replicate_succ]

/-- C1: for every payload and every chunk size ≥ 1, `sendChunks` emits
chunks of at most the chunk size whose in-order concatenation is exactly
the payload; the first emitted chunk (and only it) carries the filename;
exactly one chunk is flagged final and it is the last one emitted; a
zero-length payload yields exactly one chunk with empty bytes, the
filename attached and the final flag set. -/
theorem sendChunks_spec (cs : Nat) (data : List Nat) (fn : String) (hcs : 1 ≤ cs) :
    (((sendChunks cs data fn).map ScanStreamRequest.Chunk).flatten = data)
  ∧ (∀ r ∈ sendChunks cs data fn, r.Chunk.length ≤ cs)
  ∧ ((sendChunks cs data fn).map ScanStreamRequest.IsLast
      = List.replicate ((sendChunks cs data fn).length - 1) false ++ [true])
  ∧ ((sendChunks cs data fn).map ScanStreamRequest.Filename
      = fn :: List.replicate ((sendChunks cs data fn).length - 1) "")
  ∧ (sendChunks cs [] fn = [{ Chunk := [], Filename := fn, IsLast := true }]) := by
  by_cases hdata : data.isEmpty
  · have hnil : data = [] := by simpa [List.isEmpty_iff] using hdata
    subst hnil
    refine ⟨rfl, ?_, rfl, rfl, rfl⟩
    intro r hr
    simp [sendChunks] at hr
    subst hr
    simp
  · have hne : data ≠ [] := by simpa [List.isEmpty_iff] using hdata
    have hout : sendChunks cs data fn = sendChunksGo cs fn data.length true data := by
      simp [sendChunks, hdata]
    refine ⟨?_, ?_, ?_, ?_, rfl⟩
    · rw [hout]; exact sendChunksGo_flatten cs fn hcs data.length data true le_rfl
    · rw [hout]; intro r hr; exact sendChunksGo_chunk_le cs fn data.length true data r hr
    · rw [hout]
      exact sendChunksGo_isLast cs fn hcs data.length data true hne le_rfl
    · rw [hout]
      simpa using sendChunksGo_filename cs fn hcs data.length data true hne le_rfl

/-- Witness for `sendChunks_spec` at chunk size 2 and payload
`[1, 2, 3, 4, 5]`. -/
theorem sendChunks_spec_witness :
    ((sendChunks 2 [1, 2, 3, 4, 5] "f").map ScanStreamRequest.Chunk).flatten
      = [1, 2, 3, 4, 5] :=
  (sendChunks_spec 2 [1, 2, 3, 4, 5] "f" (by decide)).1

/-- A gRPC status code outside `{InvalidArgument, Internal,
DeadlineExceeded, Canceled, Unavailable}` falls to `mapGRPCError`'s
default branch: a Service error carrying the `grpcCodeToHTTP` translation
of the code. -/
theorem mapGRPCError_default (code : Nat) (m : String) (err : GoErr)
    (h : code ∉ ([3, 13, 4, 1, 14] : List Nat)) :
    mapGRPCError (some ⟨code, m⟩) err
      = NewServiceError m (grpcCodeToHTTP code) (some err) := by
  simp only [mapGRPCError]
  split <;> simp_all

/-- A gRPC status code outside the standard vocabulary handled by
`grpcCodeToHTTP`'s table translates to 500. -/
theorem grpcCodeToHTTP_default (code : Nat)
    (h : code ∉ ([0, 1, 2, 3, 4, 5, 6, 7, 8, 12, 13, 14, 15, 16] : List Nat)) :
    grpcCodeToHTTP code = 500 := by
  simp only [grpcCodeToHTTP]
  split <;> simp_all

/-- C3: `mapGRPCError` maps invalid-argument (3) to Validation, internal
(13) to Service with status 500, deadline-exceeded (4) and canceled (1)
to Timeout, unavailable (14) to Connection, and any other status to
Service carrying the HTTP-equivalent status from the fixed
`grpcCodeToHTTP` table (whose remaining standard entries are listed
below, and which translates any code outside the standard vocabulary to
500). -/
theorem mapGRPCError_spec (other unrec : Nat) (m : String) (err : GoErr)
    (hother : other ∉ ([3, 13, 4, 1, 14] : List Nat))
    (hunrec : unrec ∉ ([0, 1, 2, 3, 4, 5, 6, 7, 8, 12, 13, 14, 15, 16] : List Nat)) :
    ((mapGRPCError (some ⟨3, m⟩) err).code = CodeValidation)
  ∧ ((mapGRPCError (some ⟨13, m⟩) err).code = CodeService
      ∧ (mapGRPCError (some ⟨13, m⟩) err).statusCode = 500)
  ∧ ((mapGRPCError (some ⟨4, m⟩) err).code = CodeTimeout)
  ∧ ((mapGRPCError (some ⟨1, m⟩) err).code = CodeTimeout)
  ∧ ((mapGRPCError (some ⟨14, m⟩) err).code = CodeConnection)
  ∧ ((mapGRPCError (some ⟨other, m⟩) err).code = CodeService
      ∧ (mapGRPCError (some ⟨other, m⟩) err).statusCode = grpcCodeToHTTP other)
  ∧ (grpcCodeToHTTP 0 = 200 ∧ grpcCodeToHTTP 16 = 401 ∧ grpcCodeToHTTP 7 = 403
      ∧ grpcCodeToHTTP 5 = 404 ∧ grpcCodeToHTTP 6 = 409 ∧ grpcCodeToHTTP 8 = 429
      ∧ grpcCodeToHTTP 12 = 501)
  ∧ (grpcCodeToHTTP unrec = 500) := by
  refine ⟨rfl, ⟨rfl, rfl⟩, rfl, rfl, rfl, ?_, by decide, grpcCodeToHTTP_default unrec hunrec⟩
  rw [mapGRPCError_default other m err hother]
  exact ⟨rfl, rfl⟩

/-- Witness for `mapGRPCError_spec` with 9 (failed-precondition, a
standard code outside the explicit branches) and 42 (a code outside the
standard vocabulary). -/
theorem mapGRPCError_spec_witness :
    (mapGRPCError (some ⟨9, "boom"⟩) (.ext "rpc" none)).code = CodeService
  ∧ (mapGRPCError (some ⟨9, "boom"⟩) (.ext "rpc" none)).statusCode = grpcCodeToHTTP 9 :=
  (mapGRPCError_spec 9 42 "boom" (.ext "rpc" none) (by decide) (by decide)).2.2.2.2.2.1

end Grpc

namespace Rest

/-- C2: `handleErrorResponse` follows the fixed table — 400 and 413 map
to Validation, 499 to Timeout, 502 to Service carrying 502, 504 to
Timeout, and every other status to Service carrying the literal HTTP
status code; when the body fails to decode the result is a Service error
carrying the raw HTTP status, whatever it is. -/
theorem handleErrorResponse_spec (sc sc2 : Int) (st m : String) (derr : GoErr)
    (hsc : ¬(sc = 400 ∨ sc = 413 ∨ sc = 499 ∨ sc = 504)) :
    ((handleErrorResponse 400 (.ok (st, m))).code = CodeValidation)
  ∧ ((handleErrorResponse 413 (.ok (st, m))).code = CodeValidation)
  ∧ ((handleErrorResponse 499 (.ok (st, m))).code = CodeTimeout)
  ∧ ((handleErrorResponse 502 (.ok (st, m))).code = CodeService
      ∧ (handleErrorResponse 502 (.ok (st, m))).statusCode = 502)
  ∧ ((handleErrorResponse 504 (.ok (st, m))).code = CodeTimeout)
  ∧ ((handleErrorResponse sc (.ok (st, m))).code = CodeService
      ∧ (handleErrorResponse sc (.ok (st, m))).statusCode = sc)
  ∧ ((handleErrorResponse sc2 (.error derr)).code = CodeService
      ∧ (handleErrorResponse sc2 (.error derr)).statusCode = sc2) := by
  push_neg at hsc
  obtain ⟨h400, h413, h499, h504⟩ := hsc
  refine ⟨rfl, rfl, rfl, ⟨rfl, rfl⟩, rfl, ?_, rfl, rfl⟩
  simp only [handleErrorResponse]
  split_ifs <;> simp_all [NewServiceError, GoErr.code, GoErr.statusCode]

/-- Witness for `handleErrorResponse_spec` at status 500. -/
theorem handleErrorResponse_spec_witness :
    (handleErrorResponse 500 (.ok ("error", "boom"))).code = CodeService
  ∧ (handleErrorResponse 500 (.ok ("error", "boom"))).statusCode = 500 :=
  (handleErrorResponse_spec 500 418 "error" "boom" (.ext "bad json" none)
    (by decide)).2.2.2.2.2.1

end Rest

/-- C5 counterexample: a 502 ("Bad Gateway") response with a decodable
body in request/response mode yields a Service error, not a Connection
error, so "service unreachable implies a Connection error" fails on the
502 half of the claim. -/
theorem rest502_service_not_connection :
    (Rest.handleErrorResponse 502 (.ok ("error", "bad gateway"))).code = CodeService
  ∧ (Rest.handleErrorResponse 502 (.ok ("error", "bad gateway"))).code ≠ CodeConnection := by
  exact ⟨rfl, by decide⟩

/-- C5 (amended): an "unavailable" status in multiplexed mode maps to a
Connection error, while a 502 response in request/response mode maps to a
Service error carrying status 502 (in that mode Connection errors arise
only from transport-level failures with no HTTP response). -/
theorem unreachable_mapping_spec (m st body : String) (err : GoErr) :
    ((Grpc.mapGRPCError (some ⟨14, m⟩) err).code = CodeConnection)
  ∧ ((Rest.handleErrorResponse 502 (.ok (st, body))).code = CodeService
      ∧ (Rest.handleErrorResponse 502 (.ok (st, body))).statusCode = 502) :=
  ⟨rfl, rfl, rfl⟩

/-- Witness for `unreachable_mapping_spec` at concrete messages. -/
theorem unreachable_mapping_spec_witness :
    ((Grpc.mapGRPCError (some ⟨14, "unreachable"⟩) (.ext "rpc" none)).code
      = CodeConnection)
  ∧ ((Rest.handleErrorResponse 502 (.ok ("error", "bad gateway"))).code = CodeService
      ∧ (Rest.handleErrorResponse 502 (.ok ("error", "bad gateway"))).statusCode
          = 502) :=
  unreachable_mapping_spec "unreachable" "error" "bad gateway" (.ext "rpc" none)

/-- `errors.As` with an SDK `*Error` target sees through any stack of
foreign decorators. -/
theorem errorsAsSdkError_wrapExt (ws : List String) (e : GoErr) :
    errorsAsSdkError (wrapExt ws e) = errorsAsSdkError e := by
  induction ws with
  | nil => rfl
  | cons w ws ih => exact ih

/-- C6: each `IsXError` predicate accepts an error built by `NewXError`,
also when wrapped in an arbitrary stack of foreign decorators; it rejects
SDK errors of every other kind and errors foreign to the SDK (also
wrapped); and a wrapped cause stays reachable through `Unwrap`. -/
theorem isXError_spec (m : String) (ws : List String) (cause : GoErr) :
    (IsConnectionError (NewConnectionError m none) = true)
  ∧ (IsTimeoutError (NewTimeoutError m none) = true)
  ∧ (IsValidationError (NewValidationError m none) = true)
  ∧ (IsServiceError (NewServiceError m 500 none) = true)
  ∧ (IsConnectionError (wrapExt ws (NewConnectionError m none)) = true)
  ∧ (IsTimeoutError (wrapExt ws (NewTimeoutError m none)) = true)
  ∧ (IsValidationError (wrapExt ws (NewValidationError m none)) = true)
  ∧ (IsServiceError (wrapExt ws (NewServiceError m 500 none)) = true)
  ∧ (IsConnectionError (NewTimeoutError m none) = false)
  ∧ (IsConnectionError (NewValidationError m none) = false)
  ∧ (IsConnectionError (NewServiceError m 500 none) = false)
  ∧ (IsTimeoutError (NewConnectionError m none) = false)
  ∧ (IsTimeoutError (NewValidationError m none) = false)
  ∧ (IsTimeoutError (NewServiceError m 500 none) = false)
  ∧ (IsValidationError (NewConnectionError m none) = false)
  ∧ (IsValidationError (NewTimeoutError m none) = false)
  ∧ (IsValidationError (NewServiceError m 500 none) = false)
  ∧ (IsServiceError (NewConnectionError m none) = false)
  ∧ (IsServiceError (NewTimeoutError m none) = false)
  ∧ (IsServiceError (NewValidationError m none) = false)
  ∧ (IsConnectionError (wrapExt ws (.ext m none)) = false)
  ∧ (IsTimeoutError (wrapExt ws (.ext m none)) = false)
  ∧ (IsValidationError (wrapExt ws (.ext m none)) = false)
  ∧ (IsServiceError (wrapExt ws (.ext m none)) = false)
  ∧ ((NewConnectionError m (some cause)).unwrap = some cause)
  ∧ ((NewTimeoutError m (some cause)).unwrap = some cause)
  ∧ ((NewValidationError m (some cause)).unwrap = some cause)
  ∧ ((NewServiceError m 500 (some cause)).unwrap = some cause) := by
  simp [IsConnectionError, IsTimeoutError, IsValidationError, IsServiceError,
    NewConnectionError, NewTimeoutError, NewValidationError, NewServiceError,
    errorsAsSdkError, errorsAsSdkError_wrapExt, GoErr.unwrap,
    CodeConnection, CodeTimeout, CodeValidation, CodeService]

/-- Witness for `isXError_spec` with a two-decorator wrapper stack. -/
theorem isXError_spec_witness :
    IsConnectionError
      (wrapExt ["request failed", "retrying"]
        (NewConnectionError "connection refused" none)) = true :=
  (isXError_spec "connection refused" ["request failed", "retrying"]
    (.ext "dial tcp" none)).2.2.2.2.1

/-- C7: invalid caller input fails fast as a Validation error before any
network activity — REST `StreamScan` with a non-positive declared size
returns a Validation error instead of a request, and gRPC `ScanFile` with
an empty payload returns a Validation error instead of a request. -/
theorem failFast_spec (size : Int) (fn : String) (hsize : size ≤ 0) :
    (∃ e, Rest.StreamScan size = .error e ∧ e.code = CodeValidation)
  ∧ (∃ e, Grpc.ScanFile [] fn = .error e ∧ e.code = CodeValidation) := by
  constructor
  · have h : Rest.StreamScan size
        = .error (NewValidationError "size must be greater than 0" none) := by
      simp [Rest.StreamScan, hsize]
    exact ⟨_, h, rfl⟩
  · exact ⟨_, rfl, rfl⟩

/-- Witness for `failFast_spec` at declared size 0. -/
theorem failFast_spec_witness :
    (∃ e, Rest.StreamScan 0 = .error e ∧ e.code = CodeValidation)
  ∧ (∃ e, Grpc.ScanFile [] "f" = .error e ∧ e.code = CodeValidation) :=
  failFast_spec 0 "f" (by decide)

namespace Rest

/-- C8: REST client construction trims trailing slashes from the base
address before storing it and requires the trimmed address to parse with
a nonempty scheme and host; any construction failure is a Validation
error; concretely, "http://localhost:6000/" normalizes to
"http://localhost:6000" and succeeds, while "localhost:6000" fails with a
Validation error. -/
theorem newClient_spec (s b : String) (hok : NewClient s = .ok b) :
    (b = trimRightSlashes s
      ∧ ∃ u, urlParse b = .ok u ∧ u.scheme ≠ "" ∧ u.host ≠ "")
  ∧ (∀ s2 e, NewClient s2 = .error e → e.code = CodeValidation)
  ∧ (NewClient "http://localhost:6000/" = .ok "http://localhost:6000")
  ∧ (∃ e, NewClient "localhost:6000" = .error e ∧ e.code = CodeValidation) := by
  refine ⟨?_, ?_, rfl, ⟨_, rfl, rfl⟩⟩
  · simp only [NewClient] at hok
    split at hok
    · exact absurd hok (by simp)
    · rename_i u hu
      split at hok
      · exact absurd hok (by simp)
      · rename_i hsh
        push_neg at hsh
        injection hok with h
        subst h
        exact ⟨rfl, u, hu, hsh.1, hsh.2⟩
  · intro s2 e he
    simp only [NewClient] at he
    split at he
    · injection he with h
      subst h
      rfl
    · split at he
      · injection he with h
        subst h
        rfl
      · exact absurd he (by simp)

/-- Witness for `newClient_spec` at the concrete base address of the
specification scenario. -/
theorem newClient_spec_witness :
    "http://localhost:6000" = trimRightSlashes "http://localhost:6000/"
      ∧ ∃ u, urlParse "http://localhost:6000" = .ok u
          ∧ u.scheme ≠ "" ∧ u.host ≠ "" :=
  (newClient_spec "http://localhost:6000/" "http://localhost:6000" rfl).1

end Rest

/-- C9: the two transports keep distinct health rules — the REST health
check is healthy iff the HTTP status is 200 and the message is literally
"ok", while the gRPC health check is healthy iff the status field is
literally "healthy"; neither rule accepts the other's sentinel. -/
theorem healthCheck_rules_spec (sc : Int) (m st gm : String) :
    ((Rest.healthCheckResult sc m).Healthy = true ↔ sc = 200 ∧ m = "ok")
  ∧ ((Rest.healthCheckResult sc m).Message = m)
  ∧ ((Grpc.healthCheckResult st gm).Healthy = true ↔ st = "healthy")
  ∧ ((Grpc.healthCheckResult st gm).Message = gm)
  ∧ ((Grpc.healthCheckResult "ok" gm).Healthy = false)
  ∧ ((Rest.healthCheckResult 200 "healthy").Healthy = false) := by
  simp [Rest.healthCheckResult, Grpc.healthCheckResult]

/-- Witness for `healthCheck_rules_spec` at the two sentinels. -/
theorem healthCheck_rules_spec_witness :
    ((Rest.healthCheckResult 200 "ok").Healthy = true ↔ (200 : Int) = 200 ∧ "ok" = "ok")
  ∧ ((Rest.healthCheckResult 200 "ok").Message = "ok")
  ∧ ((Grpc.healthCheckResult "healthy" "fine").Healthy = true ↔ "healthy" = "healthy")
  ∧ ((Grpc.healthCheckResult "healthy" "fine").Message = "fine")
  ∧ ((Grpc.healthCheckResult "ok" "fine").Healthy = false)
  ∧ ((Rest.healthCheckResult 200 "healthy").Healthy = false) :=
  healthCheck_rules_spec 200 "ok" "healthy" "fine"

/-- C10: the REST transport's `ScanFile` and `ScanReader` accept an empty
payload — no Validation error, the multipart upload request is still
produced (with the default filename when none is given) — unlike the
gRPC `ScanFile`, which rejects an empty payload before the call. -/
theorem rest_accepts_empty_payload (fn : String) :
    ((Rest.ScanFile [] fn).isOk = true)
  ∧ (Rest.ScanReader [] "" = .ok
      { path := Rest.pathScan, fieldName := "file", filename := "file", fileBytes := [] })
  ∧ (Rest.ScanFile [] fn = .ok
      { path := Rest.pathScan, fieldName := "file",
        filename := if fn = "" then "file" else fn, fileBytes := [] })
  ∧ (∃ e, Grpc.ScanFile [] fn = .error e ∧ e.code = CodeValidation) :=
  ⟨rfl, rfl, rfl, ⟨_, rfl, rfl⟩⟩

/-- Witness for `rest_accepts_empty_payload` at the filename "report". -/
theorem rest_accepts_empty_payload_witness :
    (Rest.ScanFile [] "report").isOk = true :=
  (rest_accepts_empty_payload "report").1

/-- An interleaving is as long as its two sources together. -/
theorem merge_length {xs ys zs : List ScanResult} (h : Merge xs ys zs) :
    zs.length = xs.length + ys.length := by
  induction h with
  | nil => rfl
  | left _ ih => simp only [List.length_cons, ih]; omega
  | right _ ih => simp only [List.length_cons, ih]; omega

/-- An interleaving contains every element of its left source. -/
theorem merge_mem_left {xs ys zs : List ScanResult} (h : Merge xs ys zs) :
    ∀ a ∈ xs, a ∈ zs := by
  induction h with
  | nil => intro a ha; simp at ha
  | left _ ih =>
    intro a ha
    rcases List.mem_cons.mp ha with h1 | h1
    · exact h1 ▸ List.mem_cons_self _ _
    · exact List.mem_cons_of_mem _ (ih a h1)
  | right _ ih =>
    intro a ha
    exact List.mem_cons_of_mem _ (ih a ha)

namespace Grpc

/-- The sender's synthesized ERROR results and the fully sent files
together account for every input file exactly once. -/
theorem senderResults_length (files : List (FileInput × Option String)) :
    (senderResults files).length + sentCount files = files.length := by
  induction files with
  | nil => rfl
  | cons fo fs ih =>
    cases hfo : fo.2 with
    | none =>
      have e1 : senderResults (fo :: fs) = senderResults fs := by
        simp [senderResults, List.filterMap_cons, hfo]
      have e2 : sentCount (fo :: fs) = sentCount fs + 1 := by
        simp [sentCount, List.filter_cons, hfo]
      rw [e1, e2, List.length_cons]
      omega
    | some m =>
      have e1 : senderResults (fo :: fs)
          = { Status := "ERROR", Message := m, Filename := fo.1.Filename }
            :: senderResults fs := by
        simp [senderResults, List.filterMap_cons, hfo]
      have e2 : sentCount (fo :: fs) = sentCount fs := by
        simp [sentCount, List.filter_cons, hfo]
      rw [e1, e2, List.length_cons, List.length_cons]
      omega

/-- Every file whose `sendChunks` call fails gets a synthesized ERROR
result carrying its filename and the error message. -/
theorem senderResults_mem (files : List (FileInput × Option String))
    (f : FileInput) (m : String) (h : (f, some m) ∈ files) :
    ({ Status := "ERROR", Message := m, Filename := f.Filename } : ScanResult)
      ∈ senderResults files :=
  List.mem_filterMap.mpr ⟨(f, some m), h, rfl⟩

/-- The send goroutine performs `CloseSend` exactly once, after all files
are processed. -/
theorem senderTrace_closeSend (cs : Nat) (files : List (FileInput × Option String)) :
    (senderTrace cs files).count SendEvent.closeSend = 1
  ∧ (senderTrace cs files).getLast? = some SendEvent.closeSend := by
  constructor
  · simp only [senderTrace, List.count_append]
    have h0 : ((files.map fun fo =>
        match fo.2 with
        | some m =>
          [SendEvent.errResult { Status := "ERROR", Message := m, Filename := fo.1.Filename }]
        | none => (sendChunks cs fo.1.Data fo.1.Filename).map SendEvent.chunkMsg).flatten).count
          SendEvent.closeSend = 0 := by
      rw [List.count_eq_zero]
      intro hmem
      rw [List.mem_flatten] at hmem
      obtain ⟨l, hl, hcl⟩ := hmem
      rw [List.mem_map] at hl
      obtain ⟨fo, _, rfl⟩ := hl
      cases hfo : fo.2 <;> simp [hfo] at hcl
    rw [h0]
    rfl
  · exact List.getLast?_concat _

/-- C4: a batch of N input files yields, through any interleaving of the
sender's synthesized ERROR results with the verdicts the server streams
back (at most one per fully sent file), a finite result sequence of at
most N entries; every file whose chunking failed contributes an
ERROR-status result carrying its filename (the batch is not aborted); and
the send side is closed exactly once, after all files are processed. -/
theorem scanMultiple_spec (cs : Nat) (files : List (FileInput × Option String))
    (resps : List ScanResult) (out : List ScanResult)
    (hresp : resps.length ≤ sentCount files)
    (hmerge : Merge (senderResults files) resps out) :
    out.length ≤ files.length
  ∧ (∀ f m, (f, some m) ∈ files →
      ({ Status := "ERROR", Message := m, Filename := f.Filename } : ScanResult) ∈ out)
  ∧ ((senderTrace cs files).count SendEvent.closeSend = 1)
  ∧ ((senderTrace cs files).getLast? = some SendEvent.closeSend) := by
  refine ⟨?_, ?_, (senderTrace_closeSend cs files).1, (senderTrace_closeSend cs files).2⟩
  · have h1 := merge_length hmerge
    have h2 := senderResults_length files
    omega
  · intro f m hf
    exact merge_mem_left hmerge _ (senderResults_mem files f m hf)

/-- Witness for `scanMultiple_spec`: two files, the second failing to
chunk, the server answering one verdict for the first. -/
theorem scanMultiple_spec_witness :
    ([{ Status := "ERROR", Message := "send failed", Filename := "b" },
      { Status := "OK", Message := "", Filename := "a" }] : List ScanResult).length
      ≤ ([({ Data := [1], Filename := "a" }, none),
          ({ Data := [2, 3], Filename := "b" }, some "send failed")] :
          List (FileInput × Option String)).length :=
  (scanMultiple_spec 64
    [({ Data := [1], Filename := "a" }, none),
     ({ Data := [2, 3], Filename := "b" }, some "send failed")]
    [{ Status := "OK", Message := "", Filename := "a" }]
    [{ Status := "ERROR", Message := "send failed", Filename := "b" },
     { Status := "OK", Message := "", Filename := "a" }]
    (by decide)
    (Merge.left (Merge.right Merge.nil))).1

end Grpc

end ClamavSdk
